import Mathlib

/-!
Verification development for the mongoose-auto-increment-reworked plugin
(src/index.ts). The counter store for a single scope, that is a fixed
(field, model) pair, is embedded as an `Option Int`: `none` means no counter
row exists for the scope, `some c` means the row exists with stored value `c`.
Each backing-store call issued by the plugin (findOne / findOneAndUpdate /
create) is atomic in the store, so it is embedded as one atomic function on
this state; concurrency between two calls is the choice of order in which the
two atomic steps run.
-/

/-- Runtime JavaScript values, as far as the plugin inspects them with
typeof checks and comparisons against the literal false. -/
inductive JSValue where
  | num (n : Int)
  | str (s : String)
  | boolean (b : Bool)
  | undef
  | null
deriving DecidableEq

/-- The JavaScript typeof operator restricted to `JSValue`. -/
def typeof : JSValue → String
  | JSValue.num _ => "number"
  | JSValue.str _ => "string"
  | JSValue.boolean _ => "boolean"
  | JSValue.undef => "undefined"
  | JSValue.null => "object"

/-- Embeds `initialStart` (index.ts line 217): the value stored at
provisioning time, `options.startAt - options.incrementBy`. -/
def initialStart (startAt incrementBy : Int) : Int :=
  startAt - incrementBy

/-- Embeds `init` (index.ts lines 566-590) run to successful completion for
one scope: `findOne(findArgs)`; when no counter row exists, `create`
a row with `c = initialStart`; when a row exists, leave the store unchanged. -/
def init (startAt incrementBy : Int) : Option Int → Option Int
  | some c => some c
  | none => some (initialStart startAt incrementBy)

/-- Embeds `onSaveAnyField` (index.ts lines 593-603): an atomic
`findOneAndUpdate(findArgs, inc c by incrementBy, new and upsert)`.
On an existing row the stored value is atomically incremented and the
post-increment value returned; on an absent row the upsert creates the row
with the increment applied to the implicit zero baseline. Returns the value
handed to the caller together with the new store state. -/
def onSaveAnyField (incrementBy : Int) : Option Int → Int × Option Int
  | some c => (c + incrementBy, some (c + incrementBy))
  | none => (incrementBy, some incrementBy)

/-- Embeds `onSaveNumberField` (index.ts lines 606-615): an atomic
`findOneAndUpdate` filtered on `c` strictly less than `value`, setting
`c = value`, with no upsert. The row is updated only when it exists and its
stored value is strictly below the candidate; otherwise nothing matches and
the store is unchanged. -/
def onSaveNumberField (value : Int) : Option Int → Option Int
  | some c => if c < value then some value else some c
  | none => none

/-- Embeds the function installed by `addNextCount` (index.ts lines 473-480):
a read-only `findOne(findArgs)` followed by a pure computation: `startAt`
when the row is absent, `c + incrementBy` when present. The store component
of the result records that findOne issues no write. -/
def nextCountFn (startAt incrementBy : Int) (s : Option Int) : Int × Option Int :=
  (match s with
    | some c => c + incrementBy
    | none => startAt, s)

/-- Embeds the function installed by `addResetCount` (index.ts lines 547-556):
an atomic upserting `findOneAndUpdate(findArgs, set c to initialStart)`,
after which the function resolves with `startAt`. -/
def resetCountFn (startAt incrementBy : Int) (_s : Option Int) : Int × Option Int :=
  (startAt, some (initialStart startAt incrementBy))

/-- Two save-time allocations for the same scope, one issued by caller A and
one by caller B, each an atomic `onSaveAnyField` step against the store; the
parameter `firstIsA` selects which caller runs first. Returns the value A
observed, the value B observed, and the final store. -/
def runTwoAllocations (incrementBy : Int) (firstIsA : Bool) (s : Option Int) :
    Int × Int × Option Int :=
  let r1 := onSaveAnyField incrementBy s
  let r2 := onSaveAnyField incrementBy r1.2
  if firstIsA then (r1.1, r2.1, r2.2) else (r2.1, r1.1, r2.2)

/-- C4: provisioning writes startAt - incrementBy, so the first allocation
yields startAt, the second startAt + incrementBy, and an allocation right
after a reset yields startAt again. -/
theorem init_then_allocations_yield_startAt_sequence (startAt incrementBy : Int) :
    init startAt incrementBy none = some (initialStart startAt incrementBy) ∧
    (onSaveAnyField incrementBy (init startAt incrementBy none)).1 = startAt ∧
    (onSaveAnyField incrementBy
      (onSaveAnyField incrementBy (init startAt incrementBy none)).2).1
        = startAt + incrementBy ∧
    (onSaveAnyField incrementBy
      (resetCountFn startAt incrementBy
        (onSaveAnyField incrementBy
          (onSaveAnyField incrementBy (init startAt incrementBy none)).2).2).2).1
        = startAt := by
  refine ⟨rfl, ?_, ?_, ?_⟩ <;>
    simp [init, initialStart, onSaveAnyField, resetCountFn]

/-- C5: resetCount stores initialStart (upserting from any prior state),
itself returns startAt, and a nextCount immediately afterwards also
returns startAt. -/
theorem resetCount_then_nextCount_returns_startAt (startAt incrementBy : Int)
    (s : Option Int) :
    (resetCountFn startAt incrementBy s).2 = some (initialStart startAt incrementBy) ∧
    (resetCountFn startAt incrementBy s).1 = startAt ∧
    (nextCountFn startAt incrementBy (resetCountFn startAt incrementBy s).2).1
      = startAt := by
  refine ⟨rfl, rfl, ?_⟩
  simp [resetCountFn, nextCountFn, initialStart]

/-- C6: nextCount does not mutate the store, returns stored + incrementBy on
an existing row and startAt on an absent one, and two consecutive calls with
no intervening mutation return the same value. -/
theorem nextCount_non_mutating_idempotent (startAt incrementBy : Int)
    (s : Option Int) :
    (nextCountFn startAt incrementBy s).2 = s ∧
    (∀ c, s = some c → (nextCountFn startAt incrementBy s).1 = c + incrementBy) ∧
    (s = none → (nextCountFn startAt incrementBy s).1 = startAt) ∧
    (nextCountFn startAt incrementBy (nextCountFn startAt incrementBy s).2).1
      = (nextCountFn startAt incrementBy s).1 := by
  refine ⟨rfl, ?_, ?_, ?_⟩
  · intro c hc; subst hc; rfl
  · intro hn; subst hn; rfl
  · rfl

/-- C6 witness: at startAt 1, incrementBy 1 and stored value 3, nextCount
leaves the row at 3, returns 4, and a repeat call returns 4 as well. -/
theorem nextCount_non_mutating_idempotent_witness :
    (nextCountFn 1 1 (some 3)).2 = some 3 ∧
    (nextCountFn 1 1 (some 3)).1 = 3 + 1 ∧
    (nextCountFn 1 1 (nextCountFn 1 1 (some 3)).2).1 = (nextCountFn 1 1 (some 3)).1 :=
  ⟨(nextCount_non_mutating_idempotent 1 1 (some 3)).1,
   (nextCount_non_mutating_idempotent 1 1 (some 3)).2.1 3 rfl,
   (nextCount_non_mutating_idempotent 1 1 (some 3)).2.2.2⟩

/-- C2: two concurrent delta-1 allocations against a scope stored at 0 or
absent hand out 1 and 2, one value to each caller in some order, and two
concurrent allocations never hand the same value to both callers. -/
theorem onSaveAnyField_concurrent_increments_distinct (firstIsA : Bool) :
    ((runTwoAllocations 1 firstIsA none).1 = 1 ∧
        (runTwoAllocations 1 firstIsA none).2.1 = 2 ∨
      (runTwoAllocations 1 firstIsA none).1 = 2 ∧
        (runTwoAllocations 1 firstIsA none).2.1 = 1) ∧
    ((runTwoAllocations 1 firstIsA (some 0)).1 = 1 ∧
        (runTwoAllocations 1 firstIsA (some 0)).2.1 = 2 ∨
      (runTwoAllocations 1 firstIsA (some 0)).1 = 2 ∧
        (runTwoAllocations 1 firstIsA (some 0)).2.1 = 1) ∧
    (∀ s : Option Int,
      (runTwoAllocations 1 firstIsA s).1 ≠ (runTwoAllocations 1 firstIsA s).2.1) := by
  refine ⟨?_, ?_, ?_⟩
  · cases firstIsA <;> simp [runTwoAllocations, onSaveAnyField]
  · cases firstIsA <;> simp [runTwoAllocations, onSaveAnyField]
  · intro s
    cases firstIsA <;> cases s <;> simp [runTwoAllocations, onSaveAnyField]

/-- C2 witness: with caller A scheduled first against an absent scope, A
observes 1, B observes 2, and the two observations differ. -/
theorem onSaveAnyField_concurrent_increments_distinct_witness :
    ((runTwoAllocations 1 true none).1 = 1 ∧
        (runTwoAllocations 1 true none).2.1 = 2 ∨
      (runTwoAllocations 1 true none).1 = 2 ∧
        (runTwoAllocations 1 true none).2.1 = 1) ∧
    (runTwoAllocations 1 true none).1 ≠ (runTwoAllocations 1 true none).2.1 :=
  ⟨(onSaveAnyField_concurrent_increments_distinct true).1,
   (onSaveAnyField_concurrent_increments_distinct true).2.2 none⟩

/-- The shared per-(schema, model) ready state (index.ts lines 94-101):
an optional recorded error and a ready flag. -/
structure ReadyState where
  error : Option String
  ready : Bool
deriving DecidableEq

/-- The fixed message of the error the pre-save hook hands to the completion
callback when initialisation was rejected (index.ts line 530). -/
def initRejectedMsg : String :=
  "The initialisation promise rejected"

/-- Outcome of one run of the pre-save `save` closure: either the hook
completed, calling the completion callback with an optional error and
leaving the document field, the store and a count of issued store
operations; or it suspended to retry after the fixed timeout. -/
inductive HookStep where
  | done (err : Option String) (docField : JSValue) (store : Option Int)
      (storeOps : Nat)
  | retry (docField : JSValue) (store : Option Int)
deriving DecidableEq

/-- Embeds one execution of the pre-save hook (index.ts lines 495-540) for a
document of the scope: when the document is not new the callback is invoked
at once with no store access; otherwise the `save` closure checks readiness
first, dispatching on whether the target field holds a number
(`onSaveNumberField`) or not (`onSaveAnyField`, whose result is written onto
the field); when not ready and no error is recorded it schedules a retry; when
not ready with a recorded error it fails with a fresh error carrying
`initRejectedMsg`. The hook never writes the ready state, which is returned
unchanged. -/
def saveHookStep (incrementBy : Int) (st : ReadyState) (isNew : Bool)
    (fieldVal : JSValue) (store : Option Int) : HookStep × ReadyState :=
  if isNew then
    if st.ready then
      match fieldVal with
      | JSValue.num v =>
        (HookStep.done none (JSValue.num v) (onSaveNumberField v store) 1, st)
      | _ =>
        (HookStep.done none (JSValue.num (onSaveAnyField incrementBy store).1)
          (onSaveAnyField incrementBy store).2 1, st)
    else if st.error.isSome then
      (HookStep.done (some initRejectedMsg) fieldVal store 0, st)
    else
      (HookStep.retry fieldVal store, st)
  else
    (HookStep.done none fieldVal store 0, st)

/-- C3: on a ready allocator, saving a new document whose field holds the
number v runs onSaveNumberField, which raises the stored counter to v exactly
when v strictly exceeds the stored value, leaves the store unchanged when v
is less than or equal to the stored value, and in both cases the insert
proceeds with the field still holding v and no error. -/
theorem onSaveNumberField_set_if_greater (incrementBy : Int) (st : ReadyState)
    (v : Int) (s : Option Int) (h : st.ready = true) :
    saveHookStep incrementBy st true (JSValue.num v) s
      = (HookStep.done none (JSValue.num v) (onSaveNumberField v s) 1, st) ∧
    (∀ c, s = some c → c < v → onSaveNumberField v s = some v) ∧
    (∀ c, s = some c → v ≤ c → onSaveNumberField v s = s) ∧
    (onSaveNumberField v s ≠ s → ∃ c, s = some c ∧ c < v) := by
  refine ⟨by simp [saveHookStep, h], ?_, ?_, ?_⟩
  · intro c hc hlt; subst hc; simp [onSaveNumberField, hlt]
  · intro c hc hle; subst hc; simp [onSaveNumberField, not_lt.mpr hle]
  · intro hne
    cases s with
    | none => exact absurd rfl hne
    | some c =>
      refine ⟨c, rfl, ?_⟩
      by_contra hge
      exact hne (by simp [onSaveNumberField, hge])

/-- C3 witness: with the allocator ready, a new document carrying field value
5 while the store holds 10 proceeds unchanged and leaves the counter at 10. -/
theorem onSaveNumberField_set_if_greater_witness :
    saveHookStep 1 ⟨none, true⟩ true (JSValue.num 5) (some 10)
      = (HookStep.done none (JSValue.num 5) (onSaveNumberField 5 (some 10)) 1,
         ⟨none, true⟩) ∧
    onSaveNumberField 5 (some 10) = some 10 :=
  ⟨(onSaveNumberField_set_if_greater 1 ⟨none, true⟩ 5 (some 10) rfl).1,
   (onSaveNumberField_set_if_greater 1 ⟨none, true⟩ 5 (some 10) rfl).2.2.1 10 rfl
     (by decide)⟩

/-- C8: when the surrounding framework marks the document as not new, the
hook calls the completion callback with no error, the document field and the
store are unchanged, no store operation is issued, and the ready state is
untouched. -/
theorem saveHook_not_new_skips_allocation (incrementBy : Int) (st : ReadyState)
    (fieldVal : JSValue) (store : Option Int) :
    saveHookStep incrementBy st false fieldVal store
      = (HookStep.done none fieldVal store 0, st) := by
  simp [saveHookStep]

/-- C7 counterexample: with the recorded initialisation error being an error
whose message is boom, the failing save hands the callback a fresh error
carrying initRejectedMsg, which is not the recorded initialisation error. -/
theorem saveHook_failed_passes_generic_error_not_state_error :
    saveHookStep 1 ⟨some "boom", false⟩ true (JSValue.num 3) (some 0)
      = (HookStep.done (some initRejectedMsg) (JSValue.num 3) (some 0) 0,
         ⟨some "boom", false⟩) ∧
    initRejectedMsg ≠ "boom" := by
  constructor
  · rfl
  · decide

/-- C7 amended: once the ready state records an error and is not ready, every
save attempt for a new document in the scope completes by passing a fresh
error with the fixed message initRejectedMsg to the completion callback; the
field keeps its prior value, the store is not touched, no store operation is
issued, and the ready state is returned unchanged, so save attempts never
make the allocator ready. -/
theorem saveHook_failed_state_fails_all_saves (incrementBy : Int)
    (st : ReadyState) (fieldVal : JSValue) (store : Option Int) (e : String)
    (h1 : st.ready = false) (h2 : st.error = some e) :
    saveHookStep incrementBy st true fieldVal store
      = (HookStep.done (some initRejectedMsg) fieldVal store 0, st) := by
  simp [saveHookStep, h1, h2]

/-- C7 amended witness: a failed allocator with recorded error boom rejects a
pending save of a document whose field holds 3, leaving store and state as
they were. -/
theorem saveHook_failed_state_fails_all_saves_witness :
    saveHookStep 1 ⟨some "boom", false⟩ true (JSValue.num 3) (some 0)
      = (HookStep.done (some initRejectedMsg) (JSValue.num 3) (some 0) 0,
         ⟨some "boom", false⟩) :=
  saveHook_failed_state_fails_all_saves 1 ⟨some "boom", false⟩ (JSValue.num 3)
    (some 0) "boom" rfl rfl

/-- World of one (schema, modelName) scope as seen across registration calls:
the counter row, the shared ready state fields, and a count of provisioning
attempts, that is of findOne-and-possibly-create sequences started by `init`
against the counter store. -/
structure RegWorld where
  store : Option Int
  ready : Bool
  error : Option String
  provisionAttempts : Nat
deriving DecidableEq

/-- Embeds one `applyPlugin` call (index.ts lines 419-442) on valid options,
run to completion of its initialisation: the body assigns
`state.promise = this.init()` unconditionally, with no check of an already
present promise, ready flag or error in the shared state, so every call
starts its own provisioning attempt; `init` performs the findOne and, on an
absent row, the create, after which the shared ready flag is set. -/
def applyPluginRun (startAt incrementBy : Int) (w : RegWorld) : RegWorld :=
  { store := init startAt incrementBy w.store
    ready := true
    error := w.error
    provisionAttempts := w.provisionAttempts + 1 }

/-- C1 counterexample: starting from a never-registered scope, a second
applyPlugin call for the same (schema, modelName) brings the count of
provisioning attempts started to 2, refuting at-most-one. -/
theorem applyPlugin_second_registration_starts_second_provisioning :
    (applyPluginRun 1 1 (applyPluginRun 1 1 ⟨none, false, none, 0⟩)).provisionAttempts
      = 2 ∧
    ¬ (applyPluginRun 1 1
        (applyPluginRun 1 1 ⟨none, false, none, 0⟩)).provisionAttempts ≤ 1 := by
  constructor
  · rfl
  · decide

/-- C1 amended: both registration calls act on the same shared AllocatorState
and the second finds the row already provisioned, so it creates nothing and
leaves the store exactly as the first left it; but each call starts its own
provisioning attempt, so two registrations start two attempts rather than
attaching to the first outcome. -/
theorem applyPlugin_each_call_starts_own_provisioning (startAt incrementBy : Int)
    (w : RegWorld) :
    (applyPluginRun startAt incrementBy
        (applyPluginRun startAt incrementBy w)).provisionAttempts
      = w.provisionAttempts + 2 ∧
    (applyPluginRun startAt incrementBy
        (applyPluginRun startAt incrementBy w)).store
      = (applyPluginRun startAt incrementBy w).store ∧
    (applyPluginRun startAt incrementBy
        (applyPluginRun startAt incrementBy w)).ready = true := by
  refine ⟨rfl, ?_, rfl⟩
  cases h : w.store <;> simp [applyPluginRun, init, h]

/-- A runtime options object as handed to option validation: each recognised
key holds an arbitrary JavaScript value. -/
structure OptionsObj where
  field : JSValue
  incrementBy : JSValue
  nextCount : JSValue
  resetCount : JSValue
  startAt : JSValue
  unique : JSValue
deriving DecidableEq

/-- Embeds `validateOptions` (index.ts lines 381-411): five typeof checks in
source order, throwing a TypeError naming the failing field at the first
check that fails; the unique key is not validated. -/
def validateOptions (o : OptionsObj) : Except String Unit :=
  if typeof o.field != "string" then
    Except.error "field must be a string"
  else if typeof o.incrementBy != "number" then
    Except.error "incrementBy must be a number"
  else if typeof o.nextCount != "string" && o.nextCount != JSValue.boolean false then
    Except.error "nextCount must be a string or false"
  else if typeof o.resetCount != "string" && o.resetCount != JSValue.boolean false then
    Except.error "resetCount must be a string or false"
  else if typeof o.startAt != "number" then
    Except.error "startAt must be a number"
  else
    Except.ok ()

/-- Validity of the field option as the source checks it: any string. -/
def stringOk (v : JSValue) : Bool :=
  typeof v == "string"

/-- Validity of a numeric option as the source checks it. -/
def numberOk (v : JSValue) : Bool :=
  typeof v == "number"

/-- Validity of an accessor-name option as the source checks it: a string or
the literal false. -/
def stringOrFalseOk (v : JSValue) : Bool :=
  typeof v == "string" || v == JSValue.boolean false

/-- The five option checks in the fixed order field, incrementBy, nextCount,
resetCount, startAt, paired with their outcomes. -/
def checkList (o : OptionsObj) : List (String × Bool) :=
  [("field", stringOk o.field),
   ("incrementBy", numberOk o.incrementBy),
   ("nextCount", stringOrFalseOk o.nextCount),
   ("resetCount", stringOrFalseOk o.resetCount),
   ("startAt", numberOk o.startAt)]

/-- Name of the first failing check in the fixed order, if any. -/
def firstInvalid (o : OptionsObj) : Option String :=
  ((checkList o).find? (fun p => !p.2)).map Prod.fst

/-- The error message validation produces for each failing field. -/
def messageFor (name : String) : String :=
  if name == "field" then "field must be a string"
  else if name == "incrementBy" then "incrementBy must be a number"
  else if name == "nextCount" then "nextCount must be a string or false"
  else if name == "resetCount" then "resetCount must be a string or false"
  else "startAt must be a number"

/-- Modelled from the spec: the claim requires the field option to be a
non-empty string, while the source only requires a string. -/
def specNonEmptyString (v : JSValue) : Bool :=
  match v with
  | JSValue.str s => !(s == "")
  | _ => false

/-- An options object whose field is the empty string and whose remaining
options are valid. -/
def emptyFieldOptions : OptionsObj :=
  { field := JSValue.str ""
    incrementBy := JSValue.num 1
    nextCount := JSValue.boolean false
    resetCount := JSValue.boolean false
    startAt := JSValue.num 1
    unique := JSValue.boolean true }

/-- C9 counterexample: validation accepts an options object whose field is
the empty string, although the claim requires the field option to be a
non-empty string and therefore requires this object to be rejected. -/
theorem validateOptions_accepts_empty_field_string :
    validateOptions emptyFieldOptions = Except.ok () ∧
    specNonEmptyString emptyFieldOptions.field = false := by
  constructor
  · rfl
  · rfl

/-- C9 amended: validation fails with the error naming exactly the first
invalid option in the fixed order field, incrementBy, nextCount, resetCount,
startAt, where field must be a string (possibly empty), incrementBy and
startAt must be numbers, and nextCount and resetCount must each be a string
or the literal false; an options object passing all five checks is
accepted. -/
theorem validateOptions_first_failure_order (o : OptionsObj) :
    validateOptions o =
      match firstInvalid o with
      | none => Except.ok ()
      | some n => Except.error (messageFor n) := by
  cases hf : typeof o.field == "string" <;>
    cases hi : typeof o.incrementBy == "number" <;>
      cases hn1 : typeof o.nextCount == "string" <;>
        cases hn2 : o.nextCount == JSValue.boolean false <;>
          cases hr1 : typeof o.resetCount == "string" <;>
            cases hr2 : o.resetCount == JSValue.boolean false <;>
              cases hs : typeof o.startAt == "number" <;>
                simp [validateOptions, firstInvalid, checkList, messageFor,
                  stringOk, numberOk, stringOrFalseOk, List.find?, bne,
                  hf, hi, hn1, hn2, hr1, hr2, hs]

/-- A partial options object as accepted by setDefaults: each key is either
absent or holds a JavaScript value. -/
structure OptsPatch where
  field : Option JSValue
  incrementBy : Option JSValue
  nextCount : Option JSValue
  resetCount : Option JSValue
  startAt : Option JSValue
  unique : Option JSValue

/-- Embeds `Object.assign(base, patch)` over the recognised option keys:
every key present in the patch overwrites the base value. -/
def objAssign (base : OptionsObj) (p : OptsPatch) : OptionsObj :=
  { field := p.field.getD base.field
    incrementBy := p.incrementBy.getD base.incrementBy
    nextCount := p.nextCount.getD base.nextCount
    resetCount := p.resetCount.getD base.resetCount
    startAt := p.startAt.getD base.startAt
    unique := p.unique.getD base.unique }

/-- The built-in default options (index.ts lines 24-31). -/
def defaultObj : OptionsObj :=
  { field := JSValue.str "_id"
    incrementBy := JSValue.num 1
    nextCount := JSValue.str "_nextCount"
    resetCount := JSValue.str "_resetCount"
    startAt := JSValue.num 1
    unique := JSValue.boolean true }

/-- A heap of option objects together with the index of the cell the module
variable defaultOptions currently refers to; object identity is cell index. -/
structure DefaultsHeap where
  cells : List OptionsObj
  defaultsIx : Nat

/-- The option object defaultOptions currently refers to. -/
def readDefaults (w : DefaultsHeap) : OptionsObj :=
  w.cells.getD w.defaultsIx defaultObj

/-- Embeds `getDefaults` (index.ts lines 262-264): allocates a fresh object
holding a copy of the current defaults via `Object.assign` onto an empty
object, and returns the reference to that fresh cell. -/
def getDefaultsAlloc (w : DefaultsHeap) : DefaultsHeap × Nat :=
  ({ cells := w.cells ++ [readDefaults w], defaultsIx := w.defaultsIx },
   w.cells.length)

/-- Mutation of the object behind a reference, as a caller of getDefaults
could perform on the object it received. -/
def writeCell (w : DefaultsHeap) (r : Nat) (v : OptionsObj) : DefaultsHeap :=
  { w with cells := w.cells.set r v }

/-- Embeds `setDefaults` (index.ts lines 356-360): merges the patch into a
fresh copy of the current defaults, validates the merged object, and only on
success allocates it and repoints defaultOptions at it; on validation failure
the raised error is returned and defaultOptions is untouched. -/
def setDefaultsRun (w : DefaultsHeap) (p : OptsPatch) :
    DefaultsHeap × Option String :=
  match validateOptions (objAssign (readDefaults w) p) with
  | Except.error e => (w, some e)
  | Except.ok _ =>
    ({ cells := w.cells ++ [objAssign (readDefaults w) p],
       defaultsIx := w.cells.length }, none)

/-- Reading an index below the original length is unaffected by appending a
cell and then overwriting the appended cell. -/
theorem getD_set_append_of_lt {α : Type} (xs : List α) (a v d : α) (i : Nat)
    (h : i < xs.length) :
    (((xs ++ [a]).set xs.length v).getD i d) = xs.getD i d := by
  rw [List.getD_eq_getElem?_getD, List.getD_eq_getElem?_getD,
    List.getElem?_set_ne (Nat.ne_of_gt h), List.getElem?_append_left h]

/-- C10: setDefaults validates the merge of the patch into a copy of the
current defaults before installing it, so on validation failure the stored
defaults are exactly as before and the raised error is the validation error;
and getDefaults hands out a reference to a fresh copy, so writing through
that reference never changes the defaults the plugin subsequently reads. -/
theorem setDefaults_atomic_getDefaults_copy (w : DefaultsHeap) (p : OptsPatch)
    (v : OptionsObj) (e : String) (hIx : w.defaultsIx < w.cells.length)
    (hErr : validateOptions (objAssign (readDefaults w) p) = Except.error e) :
    readDefaults (setDefaultsRun w p).1 = readDefaults w ∧
    (setDefaultsRun w p).2 = some e ∧
    readDefaults (writeCell (getDefaultsAlloc w).1 (getDefaultsAlloc w).2 v)
      = readDefaults w := by
  refine ⟨?_, ?_, ?_⟩
  · simp [setDefaultsRun, hErr]
  · simp [setDefaultsRun, hErr]
  · show (((w.cells ++ [readDefaults w]).set w.cells.length v).getD w.defaultsIx
        defaultObj) = readDefaults w
    exact getD_set_append_of_lt w.cells (readDefaults w) v defaultObj
      w.defaultsIx hIx

/-- C10 witness: on a heap whose single cell holds the built-in defaults, a
patch setting startAt to a string fails validation, leaves the defaults
untouched, and writing through the reference getDefaults returned leaves the
defaults untouched as well. -/
theorem setDefaults_atomic_getDefaults_copy_witness :
    readDefaults (setDefaultsRun ⟨[defaultObj], 0⟩
        ⟨none, none, none, none, some (JSValue.str "x"), none⟩ ).1
      = readDefaults ⟨[defaultObj], 0⟩ ∧
    (setDefaultsRun ⟨[defaultObj], 0⟩
        ⟨none, none, none, none, some (JSValue.boolean true), none⟩).2
      = some "startAt must be a number" ∧
    readDefaults (writeCell (getDefaultsAlloc ⟨[defaultObj], 0⟩).1
        (getDefaultsAlloc ⟨[defaultObj], 0⟩).2 defaultObj)
      = readDefaults ⟨[defaultObj], 0⟩ :=
  ⟨(setDefaults_atomic_getDefaults_copy ⟨[defaultObj], 0⟩
      ⟨none, none, none, none, some (JSValue.str "x"), none⟩ defaultObj
      "startAt must be a number" (by decide) (by rfl)).1,
   (setDefaults_atomic_getDefaults_copy ⟨[defaultObj], 0⟩
      ⟨none, none, none, none, some (JSValue.boolean true), none⟩ defaultObj
      "startAt must be a number" (by decide) (by rfl)).2.1,
   (setDefaults_atomic_getDefaults_copy ⟨[defaultObj], 0⟩
      ⟨none, none, none, none, some (JSValue.str "x"), none⟩ defaultObj
      "startAt must be a number" (by decide) (by rfl)).2.2⟩
